import Mathlib

/-!
# Verification of the Dwolla sandbox dashboard backend

A shallow embedding of the request-handling logic of
`src/backend/server.js` (an Express proxy in front of the Dwolla
sandbox API), together with proofs about the behaviour its
specification describes.

Conventions of the embedding:
* JavaScript `null`/`undefined` string and number fields are modelled
  with `Option`; JS truthiness of such fields (`null`, `undefined`,
  `""` and `0` are falsy) is made explicit by `jsTruthyStr` /
  `jsNum`-style helpers.
* JS numbers (timestamps, amounts) are modelled as rationals `ℚ`.
* The external provider (Dwolla) is an explicit parameter of each
  handler: association lists from resource URL to response body, a
  missing key modelling a request that throws.  Each handler returns,
  besides its HTTP response and the updated in-memory stores, the list
  of provider calls it issued, so that "no provider call is made"
  claims are directly expressible.
* Express route dispatch (first registered matching route wins,
  `:param` matching any single non-empty path segment) is modelled
  explicitly for the `GET /api/customers/...` routes.
-/

namespace Dwolla

/-- JavaScript truthiness of an optional string field: `null`/absent and
the empty string are falsy. -/
def jsTruthyStr : Option String → Bool
  | none => false
  | some s => s ≠ ""

/-- JavaScript `v || d` for an optional string field `v` with default `d`. -/
def jsOrStr (v : Option String) (d : String) : String :=
  match v with
  | some s => if s = "" then d else s
  | none => d

/-- JavaScript `s.toLowerCase()`, modelled as character-wise
lowercasing (written on the character list so concrete instances
evaluate by `decide`). -/
def jsToLower (s : String) : String :=
  ⟨s.data.map Char.toLower⟩

/-- JS numeric coercion of a possibly-`null` number field
(`Number(null) = 0`). -/
def jsNum : Option ℚ → ℚ
  | some q => q
  | none => 0

/-- `url.split('/').pop()`: the last `/`-separated segment of a URL,
used throughout the server to extract resource ids. -/
def lastSegment (u : String) : String :=
  ((u.splitOn "/").getLast?).getD ""

/-- First-match association-list lookup, modelling a keyed `GET` of a
provider resource by URL (`none` models a request that throws). -/
def alookup {β : Type} (k : String) : List (String × β) → Option β
  | [] => none
  | (k', v) :: rest => if k' = k then some v else alookup k rest

/-- Apply `f` to the first element satisfying `p` and keep the rest,
which is what JavaScript `list.find(p)` followed by in-place mutation
of the found element does to the store. -/
def mapFirstBy {α : Type} (p : α → Bool) (f : α → α) : List α → List α
  | [] => []
  | x :: xs => if p x then f x :: xs else x :: mapFirstBy p f xs

/-- A provider call issued by a handler. -/
inductive HttpCall where
  | get (url : String)
  | post (url : String)
deriving Repr, DecidableEq

-- ============================================================================
-- IN-MEMORY STORAGE (the module-level `let` bindings of server.js)
-- ============================================================================

/-- A JSON primitive, kept for fields the server stores without
inspecting but whose JS type matters for truthiness and method calls
(the webhook `topic`). -/
inductive JVal where
  | str (s : String)
  | num (q : ℚ)
  | boolean (b : Bool)
deriving Repr, DecidableEq

/-- JS truthiness of an optional `JVal` field. -/
def jsTruthyVal : Option JVal → Bool
  | none => false
  | some (.str s) => s ≠ ""
  | some (.num q) => q ≠ 0
  | some (.boolean b) => b

/-- An entry of `customersStore`: the minimal metadata kept locally for
duplicate checking and quick lookups (server.js lines 330-340). -/
structure CustomerRecord where
  id : String
  url : String
  firstName : String
  lastName : String
  email : String
  phone : Option String
  type : String
  status : String
  createdAt : String
deriving Repr, DecidableEq

/-- An entry of `transfersStore` (server.js lines 867-875). -/
structure TransferRecord where
  id : String
  url : String
  status : String
  amountValue : String
  amountCurrency : String
  created : String
  sourceFundingSourceUrl : String
  destinationFundingSourceUrl : String
deriving Repr, DecidableEq

/-- The `_links` object of an inbound webhook event; the server only
dereferences `_links.customer.href` and `_links.resource.href`. -/
structure WebhookLinks where
  customer : Option String
  resource : Option String
deriving Repr, DecidableEq

/-- An inbound webhook event body as the handler reads it.  `topic` is
kept as a raw JSON value because the server calls `.startsWith` on it
without checking it is a string. -/
structure WebhookEvent where
  id : Option String
  topic : Option JVal
  resourceId : Option String
  timestamp : Option String
  links : Option WebhookLinks
  created : Option String
deriving Repr, DecidableEq

/-- An entry of `webhooksStore` (server.js lines 1050-1057). -/
structure WebhookRecord where
  id : String
  topic : Option JVal
  resourceId : Option String
  timestamp : String
  links : Option WebhookLinks
  created : String
deriving Repr, DecidableEq

-- ============================================================================
-- TOKEN MANAGEMENT (getValidAccessToken, server.js lines 99-130)
-- ============================================================================

/-- The `dwollaConfig` module-level object.  Times are milliseconds
since epoch; `expiresIn` is in seconds.  `none` models `null`. -/
structure TokenConfig where
  key : Option String
  secret : Option String
  accessToken : Option String
  expiresIn : Option ℚ
  tokenCreatedAt : Option ℚ
deriving Repr, DecidableEq

/-- A successful response of the provider's client-credentials grant. -/
structure TokenResponse where
  access_token : String
  expires_in : ℚ
deriving Repr, DecidableEq

/-- The two failures `getValidAccessToken` can throw. -/
inductive TokenError where
  | configurationError
  | authenticationError
deriving Repr, DecidableEq

/-- The error messages thrown by `getValidAccessToken`. -/
def tokenErrorMessage : TokenError → String
  | .configurationError =>
      "Dwolla credentials not configured. Please set up API key and secret."
  | .authenticationError =>
      "Failed to obtain Dwolla access token. Check your API credentials."

/-- `getValidAccessToken()` (server.js lines 99-130).  `now` is
`Date.now()`; `provider` is the provider's answer to
`dwollaClient.auth.client()` (`none`: the request fails).  Returns the
thrown error or returned token, the updated `dwollaConfig`, and
whether a provider token request was issued. -/
def getValidAccessToken (cfg : TokenConfig) (now : ℚ)
    (provider : Option TokenResponse) :
    Except TokenError String × TokenConfig × Bool :=
  if !(jsTruthyStr cfg.key) || !(jsTruthyStr cfg.secret) then
    (.error .configurationError, cfg, false)
  else
    let tokenAge : ℚ := (now - jsNum cfg.tokenCreatedAt) / 1000
    let isExpired : Bool :=
      !(jsTruthyStr cfg.accessToken) ||
        decide (tokenAge ≥ jsNum cfg.expiresIn - 60)
    if isExpired then
      match provider with
      | none => (.error .authenticationError, cfg, true)
      | some r =>
          (.ok r.access_token,
           { cfg with
              accessToken := some r.access_token,
              expiresIn := some r.expires_in,
              tokenCreatedAt := some now },
           true)
    else
      (.ok (cfg.accessToken.getD ""), cfg, false)

-- ============================================================================
-- POST /api/config (server.js lines 182-220)
-- ============================================================================

/-- The whole mutable server state touched by `POST /api/config`. -/
structure ServerState where
  config : TokenConfig
  customers : List CustomerRecord
  transfers : List TransferRecord
  webhooks : List WebhookRecord
deriving Repr, DecidableEq

/-- Response of `POST /api/config`. -/
structure ConfigResp where
  status : Nat
  error : Option String
  tokenExpiresIn : Option ℚ
deriving Repr, DecidableEq

/-- `POST /api/config` (server.js lines 182-220): store the supplied
credentials, request an initial token to validate them, and only on
success clear the local registries. -/
def configPost (st : ServerState) (key secret : Option String) (now : ℚ)
    (provider : Option TokenResponse) : ConfigResp × ServerState :=
  if !(jsTruthyStr key) || !(jsTruthyStr secret) then
    ({ status := 400, error := some "Both API key and secret are required",
       tokenExpiresIn := none }, st)
  else
    -- credentials are stored in dwollaConfig before they are validated
    let cfg1 : TokenConfig := { st.config with key := key, secret := secret }
    match getValidAccessToken cfg1 now provider with
    | (.error e, cfg', _) =>
        ({ status := 400, error := some (tokenErrorMessage e),
           tokenExpiresIn := none },
         { st with config := cfg' })
    | (.ok _, cfg2, _) =>
        ({ status := 200, error := none, tokenExpiresIn := cfg2.expiresIn },
         { config := cfg2, customers := [], transfers := [], webhooks := [] })

-- ============================================================================
-- POST /api/customers (server.js lines 260-363)
-- ============================================================================

/-- The request body of `POST /api/customers`. -/
structure CreateCustomerRequest where
  firstName : Option String
  lastName : Option String
  email : Option String
  phone : Option String
  type : Option String
  businessName : Option String
deriving Repr, DecidableEq

/-- The provider payload built for `POST customers`
(server.js lines 291-305). -/
structure CustomerCreateBody where
  firstName : String
  lastName : String
  email : String
  phone : Option String
  type : Option String
  businessName : Option String
  businessType : Option String
deriving Repr, DecidableEq

/-- server.js lines 291-305: build the customer payload. -/
def buildCustomerCreateBody (req : CreateCustomerRequest) : CustomerCreateBody :=
  let base : CustomerCreateBody :=
    { firstName := req.firstName.getD "", lastName := req.lastName.getD "",
      email := req.email.getD "",
      phone := if jsTruthyStr req.phone then req.phone else none,
      type := none, businessName := none, businessType := none }
  if req.type = some "business" then
    { base with
       type := some "business",
       businessName := some (jsOrStr req.businessName
         (req.firstName.getD "" ++ " " ++ req.lastName.getD "" ++ " Business")),
       businessType := some "soleProprietorship" }
  else base

/-- The body the provider returns when the freshly created customer is
fetched back through its `Location` header. -/
structure NewCustomerBody where
  firstName : String
  lastName : String
  email : String
  type : Option String
  status : String
  created : String
deriving Repr, DecidableEq

/-- Provider behaviour seen by `POST /api/customers`:
the outcome of `POST customers` (the `Location` header, `none` when the
call throws) and the bodies served for follow-up `GET`s. -/
structure CreateCustomerEnv where
  createLocation : Option String
  fetch : List (String × NewCustomerBody)
deriving Repr, DecidableEq

/-- Common result shape for the customer endpoints: HTTP status, the
`error` body field when present, the updated `customersStore`, and the
provider calls issued. -/
structure CustomersResult where
  status : Nat
  error : Option String
  store : List CustomerRecord
  calls : List HttpCall
deriving Repr, DecidableEq

/-- `POST /api/customers` (server.js lines 260-363). -/
def createCustomer (store : List CustomerRecord) (req : CreateCustomerRequest)
    (env : CreateCustomerEnv) : CustomersResult :=
  if !(jsTruthyStr req.firstName) || !(jsTruthyStr req.lastName) ||
      !(jsTruthyStr req.email) then
    { status := 400, error := some "First name, last name, and email are required",
      store := store, calls := [] }
  else
    let email := req.email.getD ""
    -- duplicate email check against the local store (case-insensitive)
    if store.any (fun c => jsToLower c.email == jsToLower email) then
      { status := 400, error := some "A customer with this email already exists",
        store := store, calls := [] }
    -- duplicate phone check, only when a (truthy) phone was supplied
    else if jsTruthyStr req.phone &&
        store.any (fun c => c.phone == req.phone) then
      { status := 400,
        error := some "A customer with this phone number already exists",
        store := store, calls := [] }
    else
      let _body := buildCustomerCreateBody req
      match env.createLocation with
      | none =>
          { status := 400, error := some "Failed to create customer",
            store := store, calls := [.post "customers"] }
      | some customerUrl =>
          match alookup customerUrl env.fetch with
          | none =>
              { status := 400, error := some "Failed to create customer",
                store := store, calls := [.post "customers", .get customerUrl] }
          | some customer =>
              let record : CustomerRecord :=
                { id := lastSegment customerUrl,
                  url := customerUrl,
                  firstName := customer.firstName,
                  lastName := customer.lastName,
                  email := customer.email,
                  phone := if jsTruthyStr req.phone then req.phone else none,
                  type := jsOrStr customer.type "personal",
                  status := customer.status,
                  createdAt := customer.created }
              { status := 201, error := none,
                store := store ++ [record],
                calls := [.post "customers", .get customerUrl] }

-- ============================================================================
-- The /api/customers/:id endpoints (server.js lines 417-655)
-- ============================================================================

/-- `GET /api/customers/:id` (server.js lines 417-440).  `env` maps a
customer URL to the `status` field of the body the provider serves. -/
def getCustomerById (store : List CustomerRecord) (id : String)
    (env : List (String × String)) : CustomersResult :=
  match store.find? (fun c => c.id == id) with
  | none => { status := 404, error := some "Customer not found",
              store := store, calls := [] }
  | some c =>
      match alookup c.url env with
      | none => { status := 500, error := some "Failed to get customer details",
                  store := store, calls := [.get c.url] }
      | some st =>
          { status := 200, error := none,
            store := mapFirstBy (fun x => x.id == id)
              (fun x => { x with status := st }) store,
            calls := [.get c.url] }

/-- The request body of `POST /api/customers/:id/verify`. -/
structure VerifyRequest where
  ssn : Option String
  dateOfBirth : Option String
  address1 : Option String
  city : Option String
  state : Option String
  postalCode : Option String
deriving Repr, DecidableEq

/-- The KYC payload built at server.js lines 469-480 (sandbox defaults
for any field not supplied). -/
structure VerificationBody where
  firstName : String
  lastName : String
  email : String
  type : String
  address1 : String
  city : String
  state : String
  postalCode : String
  dateOfBirth : String
  ssn : String
deriving Repr, DecidableEq

/-- server.js lines 469-480. -/
def buildVerificationBody (c : CustomerRecord) (req : VerifyRequest) :
    VerificationBody :=
  { firstName := c.firstName, lastName := c.lastName, email := c.email,
    type := "personal",
    address1 := jsOrStr req.address1 "123 Main St",
    city := jsOrStr req.city "San Francisco",
    state := jsOrStr req.state "CA",
    postalCode := jsOrStr req.postalCode "94105",
    dateOfBirth := jsOrStr req.dateOfBirth "1990-01-01",
    ssn := jsOrStr req.ssn "1234" }

/-- Outcome of a provider `POST`: success, or a thrown error optionally
carrying the `_embedded.errors` messages of a structured Dwolla error. -/
inductive PostOutcome where
  | ok
  | err (embedded : Option (List String))
deriving Repr, DecidableEq

/-- `POST /api/customers/:id/verify` (server.js lines 449-511).
`postEnv` gives the outcome of the KYC `POST` per customer URL (a
missing key models a thrown request); `getEnv` gives the `status` of
the re-fetched customer. -/
def verifyCustomer (store : List CustomerRecord) (id : String)
    (req : VerifyRequest) (postEnv : List (String × PostOutcome))
    (getEnv : List (String × String)) : CustomersResult :=
  match store.find? (fun c => c.id == id) with
  | none => { status := 404, error := some "Customer not found",
              store := store, calls := [] }
  | some c =>
      let _body := buildVerificationBody c req
      match alookup c.url postEnv with
      | some .ok =>
          (match alookup c.url getEnv with
           | none =>
               -- the re-fetch threw: caught with the default message
               { status := 400, error := some "Failed to verify customer",
                 store := store, calls := [.post c.url, .get c.url] }
           | some st =>
               { status := 200, error := none,
                 store := mapFirstBy (fun x => x.id == id)
                   (fun x => { x with status := st }) store,
                 calls := [.post c.url, .get c.url] })
      | some (.err embedded) =>
          { status := 400,
            error := some (match embedded with
              | some msgs => String.intercalate ". " msgs
              | none => "Failed to verify customer"),
            store := store, calls := [.post c.url] }
      | none =>
          { status := 400, error := some "Failed to verify customer",
            store := store, calls := [.post c.url] }

/-- The request body of `POST /api/customers/:id/funding-sources`. -/
structure AddFundingSourceRequest where
  name : Option String
  routingNumber : Option String
  accountNumber : Option String
  accountType : Option String
deriving Repr, DecidableEq

/-- The payload built at server.js lines 544-549 (sandbox test numbers
as defaults). -/
structure FundingSourceCreateBody where
  routingNumber : String
  accountNumber : String
  bankAccountType : String
  name : String
deriving Repr, DecidableEq

/-- server.js lines 544-549. -/
def buildFundingSourceCreateBody (req : AddFundingSourceRequest) :
    FundingSourceCreateBody :=
  { routingNumber := jsOrStr req.routingNumber "222222226",
    accountNumber := jsOrStr req.accountNumber "123456789",
    bankAccountType := jsOrStr req.accountType "checking",
    name := req.name.getD "" }

/-- A funding-source body as served by the provider. -/
structure FsBody where
  url : String
  name : String
  type : String
  bankAccountType : String
  status : String
  bankName : String
  created : String
  removed : Bool
deriving Repr, DecidableEq

/-- `POST /api/customers/:id/funding-sources` (server.js lines 524-590).
`postEnv` maps `{customerUrl}/funding-sources` to the `Location` header
of a successful creation; `getEnv` serves the created funding source. -/
def addFundingSource (store : List CustomerRecord) (id : String)
    (req : AddFundingSourceRequest) (postEnv : List (String × String))
    (getEnv : List (String × FsBody)) : CustomersResult :=
  match store.find? (fun c => c.id == id) with
  | none => { status := 404, error := some "Customer not found",
              store := store, calls := [] }
  | some c =>
      if !(jsTruthyStr req.name) then
        { status := 400, error := some "Account nickname (name) is required",
          store := store, calls := [] }
      else
        let _body := buildFundingSourceCreateBody req
        match alookup (c.url ++ "/funding-sources") postEnv with
        | none =>
            { status := 400, error := some "Failed to add funding source",
              store := store, calls := [.post (c.url ++ "/funding-sources")] }
        | some fsUrl =>
            match alookup fsUrl getEnv with
            | none =>
                { status := 400, error := some "Failed to add funding source",
                  store := store,
                  calls := [.post (c.url ++ "/funding-sources"), .get fsUrl] }
            | some _fs =>
                { status := 201, error := none, store := store,
                  calls := [.post (c.url ++ "/funding-sources"), .get fsUrl] }

/-- `GET /api/customers/:id/funding-sources` (server.js lines 596-628).
`env` maps `{customerUrl}/funding-sources` to the embedded list. -/
def listFundingSources (store : List CustomerRecord) (id : String)
    (env : List (String × List FsBody)) : CustomersResult :=
  match store.find? (fun c => c.id == id) with
  | none => { status := 404, error := some "Customer not found",
              store := store, calls := [] }
  | some c =>
      match alookup (c.url ++ "/funding-sources") env with
      | none =>
          { status := 500, error := some "Failed to list funding sources",
            store := store, calls := [.get (c.url ++ "/funding-sources")] }
      | some _l =>
          { status := 200, error := none, store := store,
            calls := [.get (c.url ++ "/funding-sources")] }

/-- `POST /api/customers/:id/iav-token` (server.js lines 635-655).
`postEnv` maps `{customerUrl}/iav-token` to the returned token. -/
def iavToken (store : List CustomerRecord) (id : String)
    (postEnv : List (String × String)) : CustomersResult :=
  match store.find? (fun c => c.id == id) with
  | none => { status := 404, error := some "Customer not found",
              store := store, calls := [] }
  | some c =>
      match alookup (c.url ++ "/iav-token") postEnv with
      | none =>
          { status := 500, error := some "Failed to create IAV token",
            store := store, calls := [.post (c.url ++ "/iav-token")] }
      | some _token =>
          { status := 200, error := none, store := store,
            calls := [.post (c.url ++ "/iav-token")] }

-- ============================================================================
-- POST /api/transfers — validation phase (server.js lines 777-855)
-- ============================================================================

/-- A funding source as the transfer handler reads it from the
provider: its `status` and the optional `_links.customer.href`. -/
structure ProviderFundingSource where
  status : String
  customerHref : Option String
deriving Repr, DecidableEq

/-- Provider state seen by `POST /api/transfers`: funding sources and
customer statuses, keyed by URL (a missing key models a `GET` that
throws). -/
structure TransferEnv where
  fundingSources : List (String × ProviderFundingSource)
  customers : List (String × String)
deriving Repr, DecidableEq

/-- The request body of `POST /api/transfers`.  `allowUnverified`
records the JS truthiness of the flag. -/
structure TransferRequest where
  sourceFundingSourceUrl : Option String
  destinationFundingSourceUrl : Option String
  amount : Option ℚ
  currency : Option String
  allowUnverified : Bool
deriving Repr, DecidableEq

/-- The transfer payload built at server.js lines 842-851. -/
structure TransferSubmission where
  source : String
  destination : String
  currency : String
  value : ℚ
deriving Repr, DecidableEq

/-- Outcome of the validation phase of `POST /api/transfers`:
an early `res.status(status).json({error})`, or reaching the
`POST transfers` provider call of line 855 with the built payload. -/
inductive TransferDecision where
  | reject (status : Nat) (error : String)
  | submit (body : TransferSubmission)
deriving Repr, DecidableEq

/-- The validation phase of `POST /api/transfers` (server.js lines
777-855), up to the point where the transfer is submitted to the
provider; also returns the provider calls issued on the way. -/
def createTransferDecision (env : TransferEnv) (req : TransferRequest) :
    TransferDecision × List HttpCall :=
  match req.sourceFundingSourceUrl, req.destinationFundingSourceUrl, req.amount with
  | some src, some dst, some amt =>
    -- `!sourceFundingSourceUrl || !destinationFundingSourceUrl || !amount`
    if src = "" || dst = "" || amt = 0 then
      (.reject 400 "Source funding source, destination funding source, and amount are required", [])
    else if amt ≤ 0 then
      (.reject 400 "Amount must be greater than 0", [])
    else
      match alookup src env.fundingSources with
      | none => (.reject 400 "Invalid source funding source", [.get src])
      | some sfs =>
        if sfs.status ≠ "verified" then
          (.reject 400 "Source funding source is not verified. Only verified funding sources can send transfers.",
           [.get src])
        else
          match alookup dst env.fundingSources with
          | none => (.reject 400 "Invalid destination funding source", [.get src, .get dst])
          | some dfs =>
            let submission : TransferSubmission :=
              { source := src, destination := dst,
                currency := jsOrStr req.currency "USD", value := amt }
            if dfs.status ≠ "verified" then
              if !req.allowUnverified then
                (.reject 400 "Destination funding source is not verified. Enable \"Allow unverified\" to send to unverified funding sources.",
                 [.get src, .get dst])
              else
                -- `const customerUrl = destFs.body._links?.customer?.href; if (customerUrl) ...`
                if jsTruthyStr dfs.customerHref then
                  let cu := dfs.customerHref.getD ""
                  match alookup cu env.customers with
                  | none =>
                      (.reject 400 "Could not verify the customer who owns the destination funding source.",
                       [.get src, .get dst, .get cu])
                  | some cstatus =>
                      if cstatus ≠ "verified" then
                        (.reject 400 "Cannot send to unverified funding source - the customer who owns it is not verified.",
                         [.get src, .get dst, .get cu])
                      else
                        (.submit submission, [.get src, .get dst, .get cu])
                else
                  (.submit submission, [.get src, .get dst])
            else
              (.submit submission, [.get src, .get dst])
  | _, _, _ =>
    (.reject 400 "Source funding source, destination funding source, and amount are required", [])

-- ============================================================================
-- Webhook ingestion (server.js lines 1038-1130)
-- ============================================================================

/-- JavaScript `s.startsWith(pre)`, written on the character lists so
that concrete instances evaluate by `decide`. -/
def jsStartsWith (s pre : String) : Bool :=
  pre.data.isPrefixOf s.data

/-- The `customer_*` topic → status table of
`updateLocalStoresFromWebhook` (server.js lines 1092-1095), applied to
the record found by URL. -/
def applyCustomerTopic (topic : String) (c : CustomerRecord) : CustomerRecord :=
  if topic = "customer_verified" then { c with status := "verified" }
  else if topic = "customer_suspended" then { c with status := "suspended" }
  else if topic = "customer_verification_document_needed" then
    { c with status := "document" }
  else if topic = "customer_reverification_needed" then { c with status := "retry" }
  else c

/-- The `transfer_*` topic → status table (server.js lines 1107-1109). -/
def applyTransferTopic (topic : String) (t : TransferRecord) : TransferRecord :=
  if topic = "transfer_completed" then { t with status := "processed" }
  else if topic = "transfer_failed" then { t with status := "failed" }
  else if topic = "transfer_cancelled" then { t with status := "cancelled" }
  else t

/-- `updateLocalStoresFromWebhook` (server.js lines 1082-1113).  Throws
(`.error`) when `event.topic` is not a string, since the function calls
`topic.startsWith` unconditionally. -/
def updateLocalStoresFromWebhook (cs : List CustomerRecord)
    (ts : List TransferRecord) (ev : WebhookEvent) :
    Except Unit (List CustomerRecord × List TransferRecord) :=
  match ev.topic with
  | some (.str topic) =>
      let cs' :=
        if jsStartsWith topic "customer_" then
          match ev.links.bind WebhookLinks.customer with
          | some u =>
              if u ≠ "" then
                mapFirstBy (fun c => c.url == u) (applyCustomerTopic topic) cs
              else cs
          | none => cs
        else cs
      let ts' :=
        if jsStartsWith topic "transfer_" then
          match ev.links.bind WebhookLinks.resource with
          | some u =>
              if u ≠ "" then
                mapFirstBy (fun t => t.url == u) (applyTransferTopic topic) ts
              else ts
          | none => ts
        else ts
      .ok (cs', ts')
  | _ => .error ()

/-- The ring-buffer insertion of server.js lines 1059-1064: prepend the
record, then truncate the store to its first 100 entries. -/
def receiveWebhook (r : WebhookRecord) (ws : List WebhookRecord) :
    List WebhookRecord :=
  let ws1 := r :: ws
  if ws1.length > 100 then ws1.take 100 else ws1

/-- `GET /api/webhooks` (server.js lines 1119-1121): returns the store
and leaves it unchanged. -/
def listWebhooks (ws : List WebhookRecord) : List WebhookRecord := ws

/-- `DELETE /api/webhooks` (server.js lines 1127-1130). -/
def clearWebhooks : List WebhookRecord := []

/-- server.js lines 1050-1057: build the stored `webhookRecord`,
defaulting `id`, `timestamp` and `created` when absent. -/
def buildWebhookRecord (ev : WebhookEvent) (nowMs : ℤ) (nowIso : String) :
    WebhookRecord :=
  { id := jsOrStr ev.id ("local-" ++ toString nowMs),
    topic := ev.topic,
    resourceId := ev.resourceId,
    timestamp := jsOrStr ev.timestamp nowIso,
    links := ev.links,
    created := jsOrStr ev.created nowIso }

/-- The response body of `POST /api/webhooks`: the acknowledgement
`received: true`, or the catch-block body `error: "Failed to process
webhook"`. -/
inductive WebhookRespBody where
  | receivedTrue
  | processErrorBody
deriving Repr, DecidableEq

/-- `POST /api/webhooks` (server.js lines 1038-1077): store the event,
truncate the buffer, patch the local stores when the topic and links
are present, and answer 200 — unless processing threw, in which case
the catch block answers 500. -/
def webhooksPost (cs : List CustomerRecord) (ts : List TransferRecord)
    (ws : List WebhookRecord) (ev : WebhookEvent) (nowMs : ℤ)
    (nowIso : String) :
    (Nat × WebhookRespBody) ×
      List CustomerRecord × List TransferRecord × List WebhookRecord :=
  let record := buildWebhookRecord ev nowMs nowIso
  let ws2 := receiveWebhook record ws
  if jsTruthyVal ev.topic && ev.links.isSome then
    match updateLocalStoresFromWebhook cs ts ev with
    | .ok (cs', ts') => ((200, .receivedTrue), cs', ts', ws2)
    | .error _ => ((500, .processErrorBody), cs, ts, ws2)
  else
    ((200, .receivedTrue), cs, ts, ws2)

-- ============================================================================
-- Express GET-route dispatch (registration order of server.js)
-- ============================================================================

/-- One segment of an Express route pattern. -/
inductive Seg where
  | lit (s : String)
  | param (name : String)
deriving Repr, DecidableEq

/-- Express/path-to-regexp segment matching: a literal matches itself,
`:name` matches any single non-empty segment. -/
def segMatches : Seg → String → Bool
  | .lit s, t => s == t
  | .param _, t => t ≠ ""

/-- A route matches a path when the segments match one for one. -/
def routeMatches : List Seg → List String → Bool
  | [], [] => true
  | p :: ps, t :: ts => segMatches p t && routeMatches ps ts
  | _, _ => false

/-- The handlers registered with `app.get` in server.js. -/
inductive GetHandler where
  | configStatus
  | customersList
  | customerById
  | customerFundingSources
  | me
  | meFundingSources
  | meBalance
  | transfersList
  | transferById
  | webhooksList
  | customersEligible
deriving Repr, DecidableEq

/-- The `app.get` routes of server.js in registration order
(lines 226, 373, 417, 596, 665, 694, 727, 916, 1002, 1119, 1146). -/
def getRoutes : List (List Seg × GetHandler) :=
  [ ([.lit "api", .lit "config", .lit "status"], .configStatus),
    ([.lit "api", .lit "customers"], .customersList),
    ([.lit "api", .lit "customers", .param "id"], .customerById),
    ([.lit "api", .lit "customers", .param "id", .lit "funding-sources"],
      .customerFundingSources),
    ([.lit "api", .lit "me"], .me),
    ([.lit "api", .lit "me", .lit "funding-sources"], .meFundingSources),
    ([.lit "api", .lit "me", .lit "balance"], .meBalance),
    ([.lit "api", .lit "transfers"], .transfersList),
    ([.lit "api", .lit "transfers", .param "id"], .transferById),
    ([.lit "api", .lit "webhooks"], .webhooksList),
    ([.lit "api", .lit "customers", .lit "eligible"], .customersEligible) ]

/-- Express dispatch: the first registered route matching the path
serves the request. -/
def dispatchGet (path : List String) : Option GetHandler :=
  (getRoutes.find? (fun r => routeMatches r.1 path)).map Prod.snd

-- ============================================================================
-- Concrete fixtures used by witness theorems
-- ============================================================================

/-- A concrete local customer record with the given email. -/
def sampleCustomer (email : String) : CustomerRecord :=
  { id := "c1", url := "https://cust/c1", firstName := "A", lastName := "B",
    email := email, phone := none, type := "personal", status := "unverified",
    createdAt := "t0" }

/-- An unconfigured server state holding one customer record. -/
def sampleState : ServerState :=
  { config := { key := none, secret := none, accessToken := none,
                expiresIn := none, tokenCreatedAt := none },
    customers := [sampleCustomer "a@b.com"], transfers := [], webhooks := [] }

/-- A configured token state: one-hour token issued at time 0. -/
def sampleTokenConfig : TokenConfig :=
  { key := some "k", secret := some "s", accessToken := some "tok",
    expiresIn := some 3600, tokenCreatedAt := some 0 }

/-- A concrete pending transfer record. -/
def sampleTransfer : TransferRecord :=
  { id := "t1", url := "https://xfer/t1", status := "pending",
    amountValue := "25.00", amountCurrency := "USD", created := "t0",
    sourceFundingSourceUrl := "https://fs/src",
    destinationFundingSourceUrl := "https://fs/dst" }

/-- A concrete `transfer_completed` webhook event resolving to
`sampleTransfer`. -/
def sampleTransferEvent : WebhookEvent :=
  { id := some "evt-2", topic := some (.str "transfer_completed"),
    resourceId := some "t1", timestamp := some "ts",
    links := some ⟨none, some "https://xfer/t1"⟩, created := none }

/-- A concrete provider state for the transfer endpoint: a verified
source, an unverified destination owned by an unverified customer. -/
def sampleTransferEnv : TransferEnv :=
  { fundingSources := [("https://fs/src", ⟨"verified", none⟩),
      ("https://fs/dst", ⟨"unverified", some "https://cust/c9"⟩)],
    customers := [("https://cust/c9", "unverified")] }

-- ============================================================================
-- Helper lemmas
-- ============================================================================

theorem mapFirstBy_of_no_match {α : Type} (p : α → Bool) (f : α → α)
    (l : List α) (h : ∀ x ∈ l, ¬ p x) : mapFirstBy p f l = l := by
  induction l with
  | nil => rfl
  | cons x xs ih =>
      have hx : ¬ (p x = true) := h x (by simp)
      simp only [mapFirstBy, if_neg hx]
      exact congrArg (x :: ·) (ih fun y hy => h y (by simp [hy]))

theorem map_ite_of_no_match {α : Type} (p : α → Bool) (f : α → α)
    (l : List α) (h : ∀ x ∈ l, ¬ p x) :
    l.map (fun x => if p x then f x else x) = l := by
  induction l with
  | nil => rfl
  | cons x xs ih =>
      have hx : ¬ (p x = true) := h x (by simp)
      simp only [List.map_cons, if_neg hx]
      exact congrArg (x :: ·) (ih fun y hy => h y (by simp [hy]))

/-- When at most one element satisfies `p`, mutating the first match
(JS `find` + assignment) is the same as mapping the conditional update
over the whole list. -/
theorem mapFirstBy_eq_map {α : Type} (p : α → Bool) (f : α → α)
    (l : List α) (h : l.countP p ≤ 1) :
    mapFirstBy p f l = l.map (fun x => if p x then f x else x) := by
  induction l with
  | nil => rfl
  | cons x xs ih =>
      by_cases hx : p x = true
      · have hxs : ∀ y ∈ xs, ¬ p y := by
          have hc : xs.countP p = 0 := by
            have := List.countP_cons_of_pos (p := p) xs hx
            omega
          exact fun y hy hp => (List.countP_eq_zero.mp hc y hy) hp
        simp only [mapFirstBy, if_pos hx, List.map_cons]
        exact congrArg (f x :: ·) (map_ite_of_no_match p f xs hxs).symm
      · have h' : xs.countP p ≤ 1 := by
          have := List.countP_cons_of_neg (p := p) xs hx
          omega
        simp only [mapFirstBy, if_neg hx, List.map_cons]
        exact congrArg (x :: ·) (ih h')

/-- A list whose images under `g` are pairwise distinct has at most one
element mapping to any given value. -/
theorem countP_le_one_of_nodup_map {α β : Type} [DecidableEq β] (g : α → β)
    (l : List α) (h : (l.map g).Nodup) (u : β) :
    l.countP (fun x => g x == u) ≤ 1 := by
  induction l with
  | nil => simp
  | cons x xs ih =>
      simp only [List.map_cons, List.nodup_cons] at h
      by_cases hx : g x = u
      · have hxs : xs.countP (fun y => g y == u) = 0 := by
          rw [List.countP_eq_zero]
          intro y hy hp
          exact h.1 (by
            rw [List.mem_map]
            exact ⟨y, hy, by subst hx; simpa using hp⟩)
        rw [List.countP_cons_of_pos (p := fun y => g y == u) xs (by simpa using hx),
          hxs]
      · rw [List.countP_cons_of_neg (p := fun y => g y == u) xs (by simpa using hx)]
        exact ih h.2

/-- A failing `getValidAccessToken` leaves `dwollaConfig` unchanged:
the token fields are only assigned after a successful grant. -/
theorem getValidAccessToken_error_config (cfg : TokenConfig) (now : ℚ)
    (p : Option TokenResponse) (e : TokenError)
    (h : (getValidAccessToken cfg now p).1 = .error e) :
    (getValidAccessToken cfg now p).2.1 = cfg := by
  revert h
  unfold getValidAccessToken
  split
  · intro _; rfl
  · dsimp only
    split
    · match p with
      | none => intro _; rfl
      | some r => intro h; simp at h
    · intro h; simp at h

-- ============================================================================
-- Claim theorems
-- ============================================================================

/-- C2 (code bug): an inbound webhook whose internal processing throws
(here: a truthy non-string `topic`, on which `updateLocalStoresFromWebhook`
calls `.startsWith`) is answered with 500 `error: "Failed to process
webhook"`, not with the unconditional 200 `received: true` the
specification requires. -/
theorem webhooks_internal_error_returns_500 :
    (webhooksPost [] [] []
      { id := some "evt-1", topic := some (.num 1), resourceId := none,
        timestamp := none, links := some { customer := none, resource := none },
        created := none } 0 "2026-01-01T00:00:00Z").1 =
      (500, WebhookRespBody.processErrorBody) := by
  decide

/-- C5 (counterexample): with source and destination supplied and
`amount = 0`, the handler answers 400 with the required-fields error
body — `0` is falsy in JavaScript, so the request dies at the
presence check — not with `"Amount must be greater than 0"` as the
claim states. -/
theorem transfers_amount_zero_error_body_cx :
    createTransferDecision { fundingSources := [], customers := [] }
      { sourceFundingSourceUrl := some "https://fs/src",
        destinationFundingSourceUrl := some "https://fs/dst",
        amount := some 0, currency := none, allowUnverified := false } =
      (.reject 400 "Source funding source, destination funding source, and amount are required", []) ∧
    "Source funding source, destination funding source, and amount are required" ≠
      "Amount must be greater than 0" := by
  exact ⟨by decide, by decide⟩

/-- C5 (amended): a transfer request with source and destination
present and `amount ≤ 0` is rejected with 400 before any provider call
is made; the error body is `"Amount must be greater than 0"` when
`amount < 0`, and the required-fields message when `amount = 0`
(`0` being falsy in JavaScript). -/
theorem transfers_nonpositive_amount_rejected
    (env : TransferEnv) (req : TransferRequest) (src dst : String) (amt : ℚ)
    (hsrc : req.sourceFundingSourceUrl = some src) (hs : src ≠ "")
    (hdst : req.destinationFundingSourceUrl = some dst) (hd : dst ≠ "")
    (hamt : req.amount = some amt) (hle : amt ≤ 0) :
    createTransferDecision env req =
      (.reject 400 (if amt < 0 then "Amount must be greater than 0"
        else "Source funding source, destination funding source, and amount are required"),
       []) := by
  rcases req with ⟨src?, dst?, amt?, cur, au⟩
  simp only at hsrc hdst hamt
  subst hsrc hdst hamt
  rcases lt_or_eq_of_le hle with hlt | hzero
  · have hne : amt ≠ 0 := ne_of_lt hlt
    simp [createTransferDecision, hs, hd, hne, hlt, le_of_lt hlt]
  · simp [createTransferDecision, hs, hd, ← hzero]

/-- C5 (witness): the spec's own scenario, `amount: -5`. -/
theorem transfers_nonpositive_amount_rejected_witness :
    createTransferDecision { fundingSources := [], customers := [] }
      { sourceFundingSourceUrl := some "https://fs/src",
        destinationFundingSourceUrl := some "https://fs/dst",
        amount := some (-5), currency := none, allowUnverified := false } =
      (.reject 400 "Amount must be greater than 0", []) := by
  have h := transfers_nonpositive_amount_rejected
    { fundingSources := [], customers := [] }
    { sourceFundingSourceUrl := some "https://fs/src",
      destinationFundingSourceUrl := some "https://fs/dst",
      amount := some (-5), currency := none, allowUnverified := false }
    "https://fs/src" "https://fs/dst" (-5) rfl (by decide) rfl (by decide) rfl
    (by norm_num)
  simpa using h

/-- C6: the webhook store holds at most 100 records after a receive,
is unchanged by a list, and emptied by a clear; receiving into a full
store of 100 prepends the new record and drops exactly the oldest
(last) one, keeping the other 99 in order. -/
theorem webhook_store_capacity (r : WebhookRecord) (ws : List WebhookRecord) :
    (receiveWebhook r ws).length ≤ 100 ∧
    listWebhooks ws = ws ∧
    clearWebhooks = ([] : List WebhookRecord) ∧
    (ws.length = 100 → receiveWebhook r ws = r :: ws.dropLast) := by
  have hdef : receiveWebhook r ws =
      if (r :: ws).length > 100 then (r :: ws).take 100 else r :: ws := rfl
  refine ⟨?_, rfl, rfl, ?_⟩
  · rw [hdef]
    split
    · simp [List.length_take]
    · next h => omega
  · intro h
    rw [hdef, if_pos (by simp [h])]
    rw [show (100 : Nat) = 99 + 1 from rfl, List.take_succ_cons,
      List.dropLast_eq_take, h]

/-- C6 (witness): inserting a 101st record into a full buffer. -/
theorem webhook_store_capacity_witness :
    receiveWebhook
      { id := "new", topic := none, resourceId := none, timestamp := "t1",
        links := none, created := "t1" }
      (List.replicate 100
        { id := "old", topic := none, resourceId := none, timestamp := "t0",
          links := none, created := "t0" }) =
      { id := "new", topic := none, resourceId := none, timestamp := "t1",
        links := none, created := "t1" } ::
      (List.replicate 100
        { id := "old", topic := none, resourceId := none, timestamp := "t0",
          links := none, created := "t0" } :
        List WebhookRecord).dropLast := by
  exact (webhook_store_capacity _ _).2.2.2 (by simp)

/-- C8 (code bug): Express matches routes in registration order and
`:id` matches any non-empty segment, so `GET /api/customers/eligible`
is captured by the earlier `/api/customers/:id` route; with no local
customer whose id is the literal string `"eligible"`, the response is
404 `Customer not found` rather than the eligible-customers list. -/
theorem eligible_route_shadowed_by_id_route :
    dispatchGet ["api", "customers", "eligible"] = some GetHandler.customerById ∧
    GetHandler.customerById ≠ GetHandler.customersEligible ∧
    getCustomerById [] "eligible" [] =
      { status := 404, error := some "Customer not found",
        store := [], calls := [] } := by
  exact ⟨by decide, by decide, rfl⟩

/-- C10: every `/api/customers/:id` endpoint looks the id up purely in
the local registry: when no local record has the id, all five answer
404 `Customer not found` with no provider call, whatever the provider
holds. -/
theorem absent_local_customer_yields_404
    (store : List CustomerRecord) (id : String)
    (habs : ∀ c ∈ store, c.id ≠ id)
    (env1 : List (String × String)) (vreq : VerifyRequest)
    (pEnv : List (String × PostOutcome)) (gEnv : List (String × String))
    (freq : AddFundingSourceRequest) (fpEnv : List (String × String))
    (fgEnv : List (String × FsBody)) (lEnv : List (String × List FsBody))
    (iEnv : List (String × String)) :
    getCustomerById store id env1 =
      { status := 404, error := some "Customer not found", store := store, calls := [] } ∧
    verifyCustomer store id vreq pEnv gEnv =
      { status := 404, error := some "Customer not found", store := store, calls := [] } ∧
    addFundingSource store id freq fpEnv fgEnv =
      { status := 404, error := some "Customer not found", store := store, calls := [] } ∧
    listFundingSources store id lEnv =
      { status := 404, error := some "Customer not found", store := store, calls := [] } ∧
    iavToken store id iEnv =
      { status := 404, error := some "Customer not found", store := store, calls := [] } := by
  have hfind : store.find? (fun c => c.id == id) = none := by
    rw [List.find?_eq_none]
    intro c hc
    simpa using habs c hc
  refine ⟨?_, ?_, ?_, ?_, ?_⟩
  · unfold getCustomerById; rw [hfind]
  · unfold verifyCustomer; rw [hfind]
  · unfold addFundingSource; rw [hfind]
  · unfold listFundingSources; rw [hfind]
  · unfold iavToken; rw [hfind]

/-- C10 (witness): an id absent from an empty local registry. -/
theorem absent_local_customer_yields_404_witness :
    getCustomerById [] "c-404" [("https://cust/c-404", "verified")] =
      { status := 404, error := some "Customer not found", store := [], calls := [] } ∧
    verifyCustomer [] "c-404" ⟨none, none, none, none, none, none⟩ [] [] =
      { status := 404, error := some "Customer not found", store := [], calls := [] } ∧
    addFundingSource [] "c-404" ⟨some "Checking", none, none, none⟩ [] [] =
      { status := 404, error := some "Customer not found", store := [], calls := [] } ∧
    listFundingSources [] "c-404" [] =
      { status := 404, error := some "Customer not found", store := [], calls := [] } ∧
    iavToken [] "c-404" [] =
      { status := 404, error := some "Customer not found", store := [], calls := [] } :=
  absent_local_customer_yields_404 [] "c-404" (by simp)
    [("https://cust/c-404", "verified")] ⟨none, none, none, none, none, none⟩
    [] [] ⟨some "Checking", none, none, none⟩ [] [] [] []

/-- C9: when `POST /api/config` is given both credentials but the
initial token acquisition fails, the response is 400, the customers,
transfers and webhooks registries keep their previous contents (they
are only cleared after a token is obtained), and `dwollaConfig`
already holds the newly supplied key and secret (they are stored
before validation). -/
theorem configPost_token_failure_preserves_registries
    (st : ServerState) (key secret : Option String) (now : ℚ)
    (provider : Option TokenResponse) (e : TokenError)
    (hkey : jsTruthyStr key = true) (hsec : jsTruthyStr secret = true)
    (hfail : (getValidAccessToken { st.config with key := key, secret := secret }
        now provider).1 = .error e) :
    (configPost st key secret now provider).1.status = 400 ∧
    (configPost st key secret now provider).2.customers = st.customers ∧
    (configPost st key secret now provider).2.transfers = st.transfers ∧
    (configPost st key secret now provider).2.webhooks = st.webhooks ∧
    (configPost st key secret now provider).2.config.key = key ∧
    (configPost st key secret now provider).2.config.secret = secret := by
  have hcfg := getValidAccessToken_error_config
    { st.config with key := key, secret := secret } now provider e hfail
  rcases hg : getValidAccessToken { st.config with key := key, secret := secret }
      now provider with ⟨res, cfg', b⟩
  rw [hg] at hfail hcfg
  simp only at hfail hcfg
  subst hfail
  subst hcfg
  simp [configPost, hkey, hsec, hg]

/-- C9 (witness): fresh credentials, non-empty registries, provider
refusing the grant. -/
theorem configPost_token_failure_preserves_registries_witness :
    (configPost sampleState (some "new-key") (some "new-secret") 0 none).1.status = 400 ∧
    (configPost sampleState (some "new-key") (some "new-secret") 0 none).2.customers =
      [sampleCustomer "a@b.com"] ∧
    (configPost sampleState (some "new-key") (some "new-secret") 0 none).2.config.key =
      some "new-key" := by
  have h := configPost_token_failure_preserves_registries
    sampleState (some "new-key") (some "new-secret") 0 none .authenticationError
    (by decide) (by decide) rfl
  exact ⟨h.1, h.2.1, h.2.2.2.2.1⟩

/-- C3: `getValidAccessToken` issues a provider token request exactly
when no token is held or the token's age in seconds is at least
`expiresIn - 60`; while a held token's age stays below that bound, any
two calls return the same token value, leave the config unchanged and
issue no provider request. -/
theorem getValidAccessToken_refresh_policy
    (cfg : TokenConfig) (now now' : ℚ) (p p' : Option TokenResponse)
    (hkey : jsTruthyStr cfg.key = true) (hsec : jsTruthyStr cfg.secret = true) :
    ((getValidAccessToken cfg now p).2.2 = true ↔
      (jsTruthyStr cfg.accessToken = false ∨
        (now - jsNum cfg.tokenCreatedAt) / 1000 ≥ jsNum cfg.expiresIn - 60)) ∧
    (∀ t : String, cfg.accessToken = some t → t ≠ "" →
      (now - jsNum cfg.tokenCreatedAt) / 1000 < jsNum cfg.expiresIn - 60 →
      (now' - jsNum cfg.tokenCreatedAt) / 1000 < jsNum cfg.expiresIn - 60 →
      getValidAccessToken cfg now p = (.ok t, cfg, false) ∧
      getValidAccessToken cfg now' p' = (.ok t, cfg, false)) := by
  constructor
  · unfold getValidAccessToken
    rw [hkey, hsec]
    simp only [Bool.not_true, Bool.or_self, Bool.false_eq_true, if_false]
    by_cases hexp : (!(jsTruthyStr cfg.accessToken) ||
        decide ((now - jsNum cfg.tokenCreatedAt) / 1000 ≥ jsNum cfg.expiresIn - 60)) = true
    · rw [if_pos hexp]
      simp only [Bool.or_eq_true, Bool.not_eq_true', decide_eq_true_eq] at hexp
      cases p <;> simpa using hexp
    · rw [if_neg hexp]
      simp only [Bool.or_eq_true, Bool.not_eq_true', decide_eq_true_eq] at hexp
      push_neg at hexp
      simp only [Bool.false_eq_true, false_iff]
      push_neg
      exact ⟨by simpa using hexp.1, hexp.2⟩
  · intro t ht htne h1 h2
    have htok : jsTruthyStr cfg.accessToken = true := by
      simp [jsTruthyStr, ht, htne]
    constructor
    · unfold getValidAccessToken
      rw [hkey, hsec, htok]
      simp only [Bool.not_true, Bool.or_self, Bool.false_eq_true, if_false,
        Bool.false_or]
      rw [if_neg (by simpa using not_le.mpr h1)]
      simp [ht]
    · unfold getValidAccessToken
      rw [hkey, hsec, htok]
      simp only [Bool.not_true, Bool.or_self, Bool.false_eq_true, if_false,
        Bool.false_or]
      rw [if_neg (by simpa using not_le.mpr h2)]
      simp [ht]

/-- C3 (witness): a one-hour token aged 1 s and 2 s, no refresh. -/
theorem getValidAccessToken_refresh_policy_witness :
    getValidAccessToken sampleTokenConfig 1000 none =
      (.ok "tok", sampleTokenConfig, false) ∧
    getValidAccessToken sampleTokenConfig 2000 none =
      (.ok "tok", sampleTokenConfig, false) :=
  (getValidAccessToken_refresh_policy sampleTokenConfig
    1000 2000 none none (by decide) (by decide)).2
    "tok" rfl (by decide) (by norm_num [sampleTokenConfig, jsNum])
    (by norm_num [sampleTokenConfig, jsNum])

/-- C4: a `POST /api/customers` request whose email matches a local
record case-insensitively, or whose supplied (non-empty) phone matches
a local record's phone, is rejected with 400, makes no provider call,
and leaves the registry unchanged. -/
theorem createCustomer_duplicate_rejected_locally
    (store : List CustomerRecord) (req : CreateCustomerRequest)
    (env : CreateCustomerEnv)
    (hdup : (∃ e, req.email = some e ∧
        ∃ c ∈ store, jsToLower c.email = jsToLower e) ∨
      (∃ ph, req.phone = some ph ∧ ph ≠ "" ∧ ∃ c ∈ store, c.phone = some ph)) :
    (createCustomer store req env).status = 400 ∧
    (createCustomer store req env).store = store ∧
    (createCustomer store req env).calls = [] := by
  unfold createCustomer
  by_cases hreq : (!(jsTruthyStr req.firstName) || !(jsTruthyStr req.lastName) ||
      !(jsTruthyStr req.email)) = true
  · rw [if_pos hreq]
    exact ⟨rfl, rfl, rfl⟩
  · rw [if_neg hreq]
    by_cases hmail : store.any
        (fun c => jsToLower c.email == jsToLower (req.email.getD "")) = true
    · rw [if_pos hmail]
      exact ⟨rfl, rfl, rfl⟩
    · rcases hdup with ⟨e, he, c, hc, heq⟩ | ⟨ph, hp, hpne, c, hc, hcp⟩
      · exact absurd (List.any_eq_true.mpr
          ⟨c, hc, by simp [he, heq]⟩) hmail
      · rw [if_neg hmail,
          if_pos (show (jsTruthyStr req.phone &&
            store.any (fun c => c.phone == req.phone)) = true by
              rw [Bool.and_eq_true]
              exact ⟨by simp [jsTruthyStr, hp, hpne],
                List.any_eq_true.mpr ⟨c, hc, by simp [hp, hcp]⟩⟩)]
        exact ⟨rfl, rfl, rfl⟩

/-- C4 (witness): duplicate email differing only in case. -/
theorem createCustomer_duplicate_rejected_locally_witness :
    (createCustomer [sampleCustomer "A@b.com"]
      { firstName := some "A", lastName := some "B", email := some "a@B.com",
        phone := none, type := none, businessName := none }
      { createLocation := some "https://cust/c2", fetch := [] }).status = 400 ∧
    (createCustomer [sampleCustomer "A@b.com"]
      { firstName := some "A", lastName := some "B", email := some "a@B.com",
        phone := none, type := none, businessName := none }
      { createLocation := some "https://cust/c2", fetch := [] }).calls = [] :=
  ⟨(createCustomer_duplicate_rejected_locally _ _ _
      (.inl ⟨"a@B.com", rfl, ⟨sampleCustomer "A@b.com", by simp, by decide⟩⟩)).1,
   (createCustomer_duplicate_rejected_locally _ _ _
      (.inl ⟨"a@B.com", rfl, ⟨sampleCustomer "A@b.com", by simp, by decide⟩⟩)).2.2⟩

/-- C7: ingesting a `transfer_completed` webhook whose resource link
matches a stored transfer's URL (transfer URLs being distinct) sets
exactly that record's status to `processed` and leaves the customers
registry untouched; an unmatched resource link leaves both registries
unchanged. -/
theorem transfer_completed_webhook_update
    (cs : List CustomerRecord) (ts : List TransferRecord) (ev : WebhookEvent)
    (l : WebhookLinks) (u : String)
    (htopic : ev.topic = some (.str "transfer_completed"))
    (hlinks : ev.links = some l) (hres : l.resource = some u) (hu : u ≠ "") :
    ((ts.map TransferRecord.url).Nodup →
      updateLocalStoresFromWebhook cs ts ev =
        .ok (cs, ts.map (fun t => if t.url = u
          then { t with status := "processed" } else t))) ∧
    ((∀ t ∈ ts, t.url ≠ u) →
      updateLocalStoresFromWebhook cs ts ev = .ok (cs, ts)) := by
  have h1 : jsStartsWith "transfer_completed" "customer_" = false := by decide
  have h2 : jsStartsWith "transfer_completed" "transfer_" = true := by decide
  have hstep : updateLocalStoresFromWebhook cs ts ev =
      .ok (cs, mapFirstBy (fun t => t.url == u)
        (applyTransferTopic "transfer_completed") ts) := by
    unfold updateLocalStoresFromWebhook
    rw [htopic]
    simp only [hlinks, Option.bind_eq_bind, Option.some_bind, hres, h1, h2,
      Bool.false_eq_true, if_false, if_true]
    rw [if_pos hu]
  constructor
  · intro hnodup
    rw [hstep,
      mapFirstBy_eq_map _ _ ts (countP_le_one_of_nodup_map TransferRecord.url ts hnodup u)]
    refine congrArg (fun x => Except.ok (cs, x)) (List.map_congr_left ?_)
    intro t _
    by_cases ht : t.url = u
    · simp [ht, applyTransferTopic]
    · simp [ht]
  · intro hno
    rw [hstep, mapFirstBy_of_no_match]
    intro t ht
    simp [hno t ht]

/-- C7 (witness): a stored transfer matched by its resource URL is
marked `processed`. -/
theorem transfer_completed_webhook_update_witness :
    updateLocalStoresFromWebhook [] [sampleTransfer] sampleTransferEvent =
      .ok ([], [{ sampleTransfer with status := "processed" }]) := by
  have h := (transfer_completed_webhook_update [] [sampleTransfer]
    sampleTransferEvent ⟨none, some "https://xfer/t1"⟩ "https://xfer/t1"
    rfl rfl rfl (by decide)).1 (by simp [sampleTransfer])
  simpa [sampleTransfer] using h

/-- Every outcome of the transfer validation phase is either a 400
rejection or a submission to the provider. -/
theorem createTransferDecision_reject400_or_submit
    (env : TransferEnv) (req : TransferRequest) :
    (∃ m calls, createTransferDecision env req = (.reject 400 m, calls)) ∨
    (∃ b calls, createTransferDecision env req = (.submit b, calls)) := by
  rcases req with ⟨src?, dst?, amt?, cur, au⟩
  rcases src? with _ | src
  · exact .inl ⟨_, _, rfl⟩
  rcases dst? with _ | dst
  · exact .inl ⟨_, _, rfl⟩
  rcases amt? with _ | amt
  · exact .inl ⟨_, _, rfl⟩
  unfold createTransferDecision
  dsimp only
  repeat' split
  all_goals first
    | exact .inl ⟨_, _, rfl⟩
    | exact .inr ⟨_, _, rfl⟩

/-- Inversion of a submitted transfer with an unverified destination:
the `allowUnverified` flag was set, and when the destination funding
source carries an owning-customer link, that customer was fetched and
found `verified`. -/
theorem createTransferDecision_submit_inv
    (env : TransferEnv) (req : TransferRequest)
    (b : TransferSubmission) (calls : List HttpCall)
    (h : createTransferDecision env req = (.submit b, calls))
    (dst : String) (dfs : ProviderFundingSource)
    (hdst : req.destinationFundingSourceUrl = some dst)
    (hfs : alookup dst env.fundingSources = some dfs)
    (hunv : dfs.status ≠ "verified") :
    req.allowUnverified = true ∧
    (∀ cu, dfs.customerHref = some cu → cu ≠ "" →
      alookup cu env.customers = some "verified" ∧ HttpCall.get cu ∈ calls) := by
  rcases req with ⟨src?, dst?, amt?, cur, au⟩
  simp only at hdst
  subst hdst
  rcases src? with _ | src
  · simp [createTransferDecision] at h
  rcases amt? with _ | amt
  · simp [createTransferDecision] at h
  unfold createTransferDecision at h
  dsimp only at h
  rw [hfs] at h
  dsimp only at h
  rw [if_pos hunv] at h
  split at h
  · simp at h
  split at h
  · simp at h
  split at h
  · simp at h
  next sfs hsfs =>
  split at h
  · simp at h
  split at h
  · simp at h
  next hau =>
  have hau' : au = true := by
    simpa using hau
  refine ⟨hau', ?_⟩
  split at h
  · -- truthy customer link: the customer was fetched
    next htr =>
    split at h
    · simp at h
    next cstatus hclook =>
    split at h
    · simp at h
    next hcver =>
    have hcv : cstatus = "verified" := by
      by_contra hne
      exact hcver hne
    intro cu hcu _
    have hget : dfs.customerHref.getD "" = cu := by rw [hcu]; rfl
    rw [hget] at hclook h
    rw [Prod.mk.injEq] at h
    refine ⟨by rw [hclook, hcv], ?_⟩
    rw [← h.2]
    simp
  · -- falsy customer link: no customer to check
    next hfal =>
    intro cu hcu hne
    rw [hcu] at hfal
    simp [jsTruthyStr] at hfal
    exact absurd hfal hne

/-- C1: a transfer to a destination funding source that is not
`verified` is rejected with 400 when `allowUnverified` is not set; it
is rejected with 400 whenever the customer owning the destination is
not `verified`, even with `allowUnverified=true`; and a submission can
only happen with `allowUnverified=true` after the owning customer
(when linked) has been fetched and found `verified`. -/
theorem transfers_unverified_destination_policy
    (env : TransferEnv) (req : TransferRequest) (dst : String)
    (dfs : ProviderFundingSource)
    (hdst : req.destinationFundingSourceUrl = some dst)
    (hfs : alookup dst env.fundingSources = some dfs)
    (hunv : dfs.status ≠ "verified") :
    (req.allowUnverified = false →
      ∃ m calls, createTransferDecision env req = (.reject 400 m, calls)) ∧
    (∀ cu cst, dfs.customerHref = some cu → cu ≠ "" →
      alookup cu env.customers = some cst → cst ≠ "verified" →
      ∃ m calls, createTransferDecision env req = (.reject 400 m, calls)) ∧
    (∀ b calls, createTransferDecision env req = (.submit b, calls) →
      req.allowUnverified = true ∧
      ∀ cu, dfs.customerHref = some cu → cu ≠ "" →
        alookup cu env.customers = some "verified" ∧
        HttpCall.get cu ∈ calls) := by
  refine ⟨?_, ?_, ?_⟩
  · intro hau
    rcases createTransferDecision_reject400_or_submit env req with
      ⟨m, calls, hA⟩ | ⟨b, calls, hA⟩
    · exact ⟨m, calls, hA⟩
    · have := (createTransferDecision_submit_inv env req b calls hA
        dst dfs hdst hfs hunv).1
      rw [hau] at this
      exact absurd this (by simp)
  · intro cu cst hcu hne hlookc hcst
    rcases createTransferDecision_reject400_or_submit env req with
      ⟨m, calls, hA⟩ | ⟨b, calls, hA⟩
    · exact ⟨m, calls, hA⟩
    · have hv := ((createTransferDecision_submit_inv env req b calls hA
        dst dfs hdst hfs hunv).2 cu hcu hne).1
      rw [hlookc] at hv
      exact absurd (Option.some.inj hv) hcst
  · intro b calls h
    exact createTransferDecision_submit_inv env req b calls h dst dfs hdst hfs hunv

/-- C1 (witness): an unverified destination owned by an unverified
customer is rejected even with `allowUnverified=true`. -/
theorem transfers_unverified_destination_policy_witness :
    ∃ m calls,
      createTransferDecision sampleTransferEnv
        { sourceFundingSourceUrl := some "https://fs/src",
          destinationFundingSourceUrl := some "https://fs/dst",
          amount := some 25, currency := none, allowUnverified := true } =
        (.reject 400 m, calls) :=
  (transfers_unverified_destination_policy sampleTransferEnv
    { sourceFundingSourceUrl := some "https://fs/src",
      destinationFundingSourceUrl := some "https://fs/dst",
      amount := some 25, currency := none, allowUnverified := true }
    "https://fs/dst" ⟨"unverified", some "https://cust/c9"⟩
    rfl (by decide) (by decide)).2.1
    "https://cust/c9" "unverified" rfl (by decide) (by decide) (by decide)

end Dwolla
